import Mathlib

/-!
# Verification of the alix-leds indicator scheduler core

Shallow embedding of `src/alix-leds.c` (version 4.0): the interface status
aggregation (`check_if_list`), the counter adapters (`update_cpu`,
`update_disk`), the four indicator state machines (`manage_net`,
`manage_running`, `manage_cpu`, `manage_disk`) and one pass of the
mini-scheduler loop in `main`.

Conventions of the embedding:
* C `unsigned int` fields are `Nat` reduced modulo `2^32` (`U32`) at the
  points where the C code can wrap (counter subtraction, parse storage).
* C `int` fields that may become negative (`sleep`, `net_sleep`) are `Int`;
  fields that stay small and non-negative in every reachable state
  (`state`, `count`, `limit`, `flash`, `type`) are `Nat`.
* I/O reads (`readfile` on /proc files, `/proc/net/dev` parsing) are
  replaced by environment inputs: `none` models `readfile(...) <= 0`,
  `some v` models a successful read whose parse yields `v`.
* `setled` calls are modelled as an `Option Bool` output per step:
  `some true` = the LED_ON write, `some false` = the `~LED_ON` write,
  `none` = no `setled` call in that step.
-/

namespace AlixLeds

/-- `MAXSLEEP` from alix-leds.c: sleep 1 second max. -/
def MAXSLEEP : Int := 1000000

/-- `SLEEP_1SEC` constant (microseconds). -/
def SLEEP_1SEC : Int := 1000000

/-- `SLEEP_500M` constant (microseconds). -/
def SLEEP_500M : Int := 500000

/-- `MAXSTEPS`, used by the network led cycle counter. -/
def MAXSTEPS : Nat := 2

def IF_CHECK_PRESENT : Nat := 1
def IF_CHECK_LOGICAL : Nat := 2
def IF_CHECK_PHYSICAL : Nat := 4
def IF_CHECK_BOTH : Nat := 6

def ETH_UP : Nat := 1
def SLAVE_UP : Nat := 2
def TUN_UP : Nat := 4
def LINK_CHANGED : Nat := 8

/-- Modulus of C `unsigned int` arithmetic. -/
def U32 : Nat := 4294967296

/-- LED types (`LED_*` enum). -/
def LED_UNUSED : Nat := 0
def LED_NET : Nat := 1
def LED_RUNNING : Nat := 2
def LED_CPU : Nat := 3
def LED_DISK : Nat := 4

/-- One `struct if_list` node: a reference into the global `ifs[]` table
(`ifidx`, standing for the `->ifs` pointer) plus the node's own
`prev_status` used for edge detection. -/
structure IfEntry where
  ifidx : Nat
  prev_status : Nat
deriving Repr, DecidableEq

/-- The `->ifs->status` dereference: `statuses` is the `status` column of
the global `ifs[]` table, indexed by `ifidx`. -/
def ifStatusOf (statuses : List Nat) (e : IfEntry) : Nat :=
  statuses.getD e.ifidx 0

/-- The do-while body of `check_if_list` over a non-empty list: accumulate
`flag` for each node whose interface satisfies `check`, detect and consume
`prev_status` edges, return the OR of all contributions and the updated
list. -/
def checkLoop (statuses : List Nat) (check flag : Nat) :
    List IfEntry → Nat × List IfEntry
  | [] => (0, [])
  | e :: rest =>
    let st := ifStatusOf statuses e
    let r1 : Nat := if st &&& check = check then flag else 0
    let r2 : Nat := if e.prev_status ≠ st then LINK_CHANGED else 0
    let e' : IfEntry := if e.prev_status ≠ st then { e with prev_status := st }
                        else e
    let res := checkLoop statuses check flag rest
    (r1 ||| r2 ||| res.1, e' :: res.2)

/-- `check_if_list(l, check, flag)`: a NULL (empty) list returns `flag`
directly; otherwise the loop above runs. -/
def check_if_list (statuses : List Nat) (l : List IfEntry)
    (check flag : Nat) : Nat × List IfEntry :=
  if l = [] then (flag, l) else checkLoop statuses check flag l

/-- `struct cpu_status`: the two retained samples of total/idle time plus
the derived usage. `cpu_total0` is `cpu_total[0]`, etc. -/
structure CpuStatus where
  cpu_total0 : Nat
  cpu_total1 : Nat
  cpu_idle0 : Nat
  cpu_idle1 : Nat
  cpu_usage : Nat
deriving Repr, DecidableEq

/-- `struct ide_status`. -/
structure IdeStatus where
  count0 : Nat
  count1 : Nat
  disk_usage : Nat
deriving Repr, DecidableEq

/-- `update_cpu`: `none` models `readfile("/proc/uptime") <= 0` (return 0,
nothing touched); `some (total, idle)` models a successful read whose
digit-parse yields `total` and `idle` (the parse itself accumulates into an
`unsigned int`, hence the `% U32`). The second component is the C return
value. -/
def update_cpu (c : CpuStatus) (sample : Option (Nat × Nat)) :
    CpuStatus × Nat :=
  match sample with
  | none => (c, 0)
  | some (total_in, idle_in) =>
    let c1 : CpuStatus :=
      { cpu_total0 := c.cpu_total1, cpu_total1 := total_in % U32,
        cpu_idle0 := c.cpu_idle1, cpu_idle1 := idle_in % U32,
        cpu_usage := c.cpu_usage }
    -- total = cpu_total[1] - cpu_total[0], unsigned
    let total := (c1.cpu_total1 + U32 - c1.cpu_total0) % U32
    let idle0 := (c1.cpu_idle1 + U32 - c1.cpu_idle0) % U32
    -- kernel 2.6 workaround: if (idle > total) idle = total
    let idle := if idle0 > total then total else idle0
    -- if (cpu_total[0] && total) usage = ((total - idle)*100) / total
    let usage1 := if c1.cpu_total0 ≠ 0 ∧ total ≠ 0 then
        ((total - idle) * 100 % U32) / total
      else c1.cpu_usage
    -- the (usage < 0) branch is dead: cpu_usage is unsigned
    let usage2 := if usage1 > 100 then 100 else usage1
    ({ c1 with cpu_usage := usage2 }, 1)

/-- `update_disk`: `none` models `readfile("/proc/interrupts") <= 0`;
`some total` models a successful read whose ide/pata line scan sums to
`total`. -/
def update_disk (d : IdeStatus) (sample : Option Nat) : IdeStatus × Nat :=
  match sample with
  | none => (d, 0)
  | some total =>
    let count1 := total % U32
    ({ count0 := d.count1, count1 := count1,
       disk_usage := (count1 + U32 - d.count1) % U32 }, 1)

/-- `struct led`. `port`, `mask` and `disk_name` are opaque output/config
identity and are omitted; the output write is returned by the manage
functions instead. -/
structure Led where
  type : Nat
  state : Nat
  sleep : Int
  intf : List IfEntry
  slave : List IfEntry
  tun : List IfEntry
  cpu : CpuStatus
  ide : IdeStatus
  count : Nat
  limit : Nat
  flash : Nat
deriving Repr, DecidableEq

/-- `manage_disk`. The sample is consumed only when `update_disk` runs
(state 0, or state <= 2 afterwards). -/
def manage_disk (led : Led) (sample : Option Nat) : Led × Option Bool :=
  if led.state = 0 then
    let (ide', r) := update_disk led.ide sample
    ({ led with ide := ide', state := if r ≠ 0 then 1 else led.state,
                sleep := SLEEP_1SEC * 250 / 1000 }, some false)
  else
    -- just check stats at the beginning of a period
    let ide' := if led.state ≤ 2 then (update_disk led.ide sample).1 else led.ide
    -- do not switch led status during intermediate states
    let st1 := if led.state = 1 ∨ led.state = 3 then
        (if ide'.disk_usage ≠ 0 then 2 else 1)
      else led.state + 1
    -- We want 100ms ON/25ms OFF every time we see disk activity
    if st1 = 1 then
      ({ led with ide := ide', state := st1, sleep := SLEEP_1SEC * 250 / 1000 },
       some false)
    else if st1 = 2 then
      ({ led with ide := ide', state := st1, sleep := SLEEP_1SEC * 100 / 1000 },
       some true)
    else if st1 = 3 then
      ({ led with ide := ide', state := st1, sleep := SLEEP_1SEC * 25 / 1000 },
       some false)
    else
      ({ led with ide := ide', state := st1 }, none)

/-- `manage_cpu`. Note the resample-schedule update: the next `limit` is
`usage/10` after a small change of usage, `usage/50` after a change of at
least 10 points. -/
def manage_cpu (led : Led) (sample : Option (Nat × Nat)) : Led × Option Bool :=
  if led.state = 0 then
    let (c', r) := update_cpu led.cpu sample
    ({ led with cpu := c', state := if r ≠ 0 then 1 else led.state,
                count := 0, limit := 1, sleep := SLEEP_1SEC / 2 }, none)
  else
    let led1 :=
      if led.count + 1 ≥ led.limit then
        let last_usage := led.cpu.cpu_usage
        let c' := (update_cpu led.cpu sample).1
        let diff := ((c'.cpu_usage : Int) - (last_usage : Int)).natAbs
        let limit' := if diff < 10 then c'.cpu_usage / 10 else c'.cpu_usage / 50
        { led with cpu := c', limit := limit', count := 0 }
      else { led with count := led.count + 1 }
    -- cpu_usage is clamped to [0,100] by update_cpu, so (100 - usage)
    -- never wraps in the C source
    if led1.state = 1 then
      ({ led1 with
           sleep := SLEEP_1SEC * 40 / 1000 +
             SLEEP_1SEC * 46 / 10000 * (100 - (led1.cpu.cpu_usage : Int)),
           state := 2 }, some true)
    else if led1.state = 2 then
      ({ led1 with
           sleep := SLEEP_1SEC * 60 / 1000 +
             SLEEP_1SEC * 44 / 10000 * (100 - (led1.cpu.cpu_usage : Int)),
           state := 1 }, some false)
    else (led1, none)

/-- `manage_running`. `fast` is the value of the global `fast_mode` flag at
the time of the call. -/
def manage_running (fast : Bool) (led : Led) : Led × Option Bool :=
  let led0 := if led.state = 0 then { led with state := 1 } else led
  if led0.state = 1 then
    ({ led0 with sleep := if fast then SLEEP_1SEC * 5 / 100
                          else SLEEP_1SEC * 40 / 100,
                 state := 2 }, some true)
  else if led0.state = 2 then
    ({ led0 with sleep := if fast then SLEEP_1SEC * 5 / 100
                          else SLEEP_1SEC * 60 / 100,
                 state := 1 }, some false)
  else (led0, none)

/-- The `led->count == 0` evaluation block of `manage_net` (state 1):
aggregate the three roles through `check_if_list`, derive `limit` and
`flash` from the status word, override `flash` to 1 on a detected link
change. -/
def netEval (statuses : List Nat) (led : Led) : Led :=
  let c1 := check_if_list statuses led.intf IF_CHECK_BOTH ETH_UP
  let c2 := check_if_list statuses led.slave IF_CHECK_LOGICAL SLAVE_UP
  let c3 := check_if_list statuses led.tun IF_CHECK_LOGICAL TUN_UP
  let status := c1.1 ||| c2.1 ||| c3.1
  let lf : Nat × Nat :=
    if status &&& (ETH_UP ||| SLAVE_UP ||| TUN_UP) = ETH_UP ||| SLAVE_UP ||| TUN_UP then
      (MAXSTEPS, 0)       -- always on if eth & slave & tun UP
    else if status &&& (ETH_UP ||| SLAVE_UP ||| TUN_UP) = ETH_UP ||| SLAVE_UP then
      (MAXSTEPS, 2)       -- 2 flashes if eth & slave UP
    else if status &&& ETH_UP ≠ 0 then
      (MAXSTEPS / 2, 0)   -- 50% ON/OFF if only eth UP
    else
      (0, 0)              -- always off if eth DOWN
  -- blink once if the status has changed
  let flash := if status &&& LINK_CHANGED ≠ 0 then 1 else lf.2
  { led with intf := c1.2, slave := c2.2, tun := c3.2,
             limit := lf.1, flash := flash }

/-- `manage_net`. The trailing block increments the cycle counter whenever
the automaton is (back) in state 1, wrapping at `MAXSTEPS`. -/
def manage_net (statuses : List Nat) (led : Led) : Led × Option Bool :=
  let led0 := if led.state = 0 then { led with state := 1 } else led
  let step : Led × Option Bool :=
    if led0.state = 1 then
      -- changes are only checked at first step
      let ledE := if led0.count = 0 then netEval statuses led0 else led0
      if ledE.count = 0 ∧ ledE.flash ≠ 0 then
        if ledE.flash = 2 then
          ({ ledE with sleep := SLEEP_500M * 45 / 100, state := 2 }, some true)
        else
          ({ ledE with sleep := SLEEP_500M * 85 / 100, state := 4 }, some true)
      else if ledE.count < ledE.limit then
        ({ ledE with sleep := SLEEP_500M }, some true)
      else
        ({ ledE with sleep := SLEEP_500M }, some false)
    else if led0.state = 2 then
      ({ led0 with sleep := SLEEP_500M * 15 / 100, state := 3 }, some false)
    else if led0.state = 3 then
      ({ led0 with sleep := SLEEP_500M * 25 / 100, state := 4 }, some true)
    else if led0.state = 4 then
      ({ led0 with sleep := SLEEP_500M * 15 / 100, state := 1 }, some false)
    else (led0, none)
  let led1 := step.1
  if led1.state = 1 then
    ({ led1 with count := if led1.count + 1 ≥ MAXSTEPS then 0 else led1.count + 1 },
     step.2)
  else step

/-! ## The mini-scheduler loop (`main`, lines 1101-1158)

One iteration of the `while (1)` loop, split at the points the claims talk
about: the network-status refresh plus led dispatch, then the computation
of `sleep_time`, then the bookkeeping after the (modelled) `usleep`. -/

/-- External inputs consumed during one scheduler pass: the statuses that
`check_if_status` would store into `ifs[]` from /proc/net/dev (including
its zero-reset on read failure), and the /proc samples each led would read
if its `update_cpu` / `update_disk` runs this pass. -/
structure Env where
  newStatuses : List Nat
  cpuSample : Nat → Option (Nat × Nat)
  diskSample : Nat → Option Nat

/-- The mutable state owned by the loop: the three leds, the `status`
column of `ifs[]`, the network checker's own timer, `nbifs` and the
`fast_mode` flag. -/
structure Sys where
  leds : List Led
  statuses : List Nat
  net_sleep : Int
  nbifs : Nat
  fast_mode : Bool

/-- `check_if_status`: rewrites the whole `ifs[].status` column from the
parsed /proc/net/dev contents; the result is the environment's data. -/
def check_if_status (env : Env) : List Nat :=
  env.newStatuses

/-- The dispatch `switch (led->type)` for one led slot: an unused led and a
led whose timer has not expired are skipped, otherwise the type-specific
manage function runs. -/
def dispatchLed (statuses : List Nat) (fast : Bool) (env : Env) (i : Nat)
    (led : Led) : Led :=
  if led.type = LED_UNUSED then led
  else if led.sleep > 0 then led
  else if led.type = LED_NET then (manage_net statuses led).1
  else if led.type = LED_RUNNING then (manage_running fast led).1
  else if led.type = LED_CPU then (manage_cpu led (env.cpuSample i)).1
  else if led.type = LED_DISK then (manage_disk led (env.diskSample i)).1
  else led

/-- The first `for (led_num ...)` loop, dispatching every due led in slot
order (`i` is the slot index of the list head). -/
def dispatchAll (statuses : List Nat) (fast : Bool) (env : Env) :
    Nat → List Led → List Led
  | _, [] => []
  | i, led :: rest =>
    dispatchLed statuses fast env i led ::
      dispatchAll statuses fast env (i + 1) rest

/-- The second `for` loop: `sleep_time` starts at `cap` and is lowered to
every active led's smaller `sleep`. -/
def computeSleepTime (cap : Int) (leds : List Led) : Int :=
  leds.foldl
    (fun t led => if led.type ≠ LED_UNUSED ∧ led.sleep < t then led.sleep else t)
    cap

/-- Lines 1102-1137: the conditional network refresh (which also re-arms
`net_sleep` and initializes `sleep_time` to it) followed by the dispatch
loop. Returns the updated state and the initial `sleep_time` value. -/
def schedPassDispatch (env : Env) (s : Sys) : Sys × Int :=
  let (statuses1, net_sleep1, cap) :=
    if s.nbifs ≠ 0 ∧ s.net_sleep ≤ 0 then
      (check_if_status env, SLEEP_500M, SLEEP_500M)
    else (s.statuses, s.net_sleep, MAXSLEEP)
  let leds1 := dispatchAll statuses1 s.fast_mode env 0 s.leds
  ({ s with leds := leds1, statuses := statuses1, net_sleep := net_sleep1 }, cap)

/-- One full pass of the `while (1)` loop. The `usleep` itself is external
(its EINTR-retry loop always ends up having slept `sleep_time`); the pass
returns the slept duration together with the post-sleep state, in which
`sleep_time` has been subtracted from `net_sleep` and from every active
led's `sleep`. -/
def schedPass (env : Env) (s : Sys) : Sys × Int :=
  let (s1, cap) := schedPassDispatch env s
  let t := computeSleepTime cap s1.leds
  let net_sleep2 := if s1.nbifs ≠ 0 then s1.net_sleep - t else s1.net_sleep
  let leds2 := s1.leds.map
    (fun led => if led.type ≠ LED_UNUSED then { led with sleep := led.sleep - t }
                else led)
  ({ s1 with leds := leds2, net_sleep := net_sleep2 }, t)

/-- Reachable-state invariant of one led slot, established by the static
initialization (`leds[3]` is zeroed, option parsing only sets `type`) and
preserved by every pass: the type is one of the five `LED_*` values, the
automaton state is within its machine's range, the cpu usage is clamped,
and a network led's remaining delay never exceeds `SLEEP_500M` (each
`manage_net` step sleeps at most that, and sleeps only shrink between
steps). -/
def ledWF (led : Led) : Prop :=
  led.type ≤ 4 ∧
  (led.type = LED_NET → led.state ≤ 4 ∧ led.sleep ≤ SLEEP_500M) ∧
  (led.type = LED_RUNNING → led.state ≤ 2) ∧
  (led.type = LED_CPU → led.state ≤ 2 ∧ led.cpu.cpu_usage ≤ 100) ∧
  (led.type = LED_DISK → led.state ≤ 3)

/-- Reachable-state invariant of the loop state: every slot satisfies
`ledWF`, and a nonzero `nbifs` implies a configured network led (the only
options that register interfaces, `-i`/`-s`/`-t`, set the current led's
type to `LED_NET`). -/
def sysWF (s : Sys) : Prop :=
  (∀ led ∈ s.leds, ledWF led) ∧
  (s.nbifs ≠ 0 → ∃ led ∈ s.leds, led.type = LED_NET)

instance (led : Led) : Decidable (ledWF led) := by
  unfold ledWF
  infer_instance

instance (s : Sys) : Decidable (sysWF s) := by
  unfold sysWF
  infer_instance

/-! ## Signal handling and the running led (for the heartbeat claims)

`fast_mode` is written by `sig_handler` (SIGUSR1 sets it to 0, SIGUSR2 to
1) and read by `manage_running` when it opens a phase. The interleaving of
signal deliveries and heartbeat steps is modelled as an event list. -/

/-- An event visible to the running led: one expiry of its timer (a
`manage_running` call), or one delivery of SIGUSR1/SIGUSR2 (`sig_handler`
storing `false`/`true` into `fast_mode`). -/
inductive RunEvent where
  | step : RunEvent
  | sig : Bool → RunEvent
deriving Repr, DecidableEq

/-- The state the running led can observe: itself and the shared flag. -/
structure RunSys where
  led : Led
  fast_mode : Bool
deriving Repr, DecidableEq

/-- Effect of one event. `sig_handler` only stores into `fast_mode`; it
never touches the led or its remaining sleep. -/
def runEvent : RunEvent → RunSys → RunSys
  | .step, s => { s with led := (manage_running s.fast_mode s.led).1 }
  | .sig b, s => { s with fast_mode := b }

/-- A whole interleaving of steps and signal deliveries. -/
def runEvents : List RunEvent → RunSys → RunSys
  | [], s => s
  | e :: es, s => runEvents es (runEvent e s)

/-- The flag value each phase transition observes: the value of
`fast_mode` at the moment of each `step` event, given the initial flag. -/
def stepFlags : List RunEvent → Bool → List Bool
  | [], _ => []
  | .step :: es, f => f :: stepFlags es f
  | .sig b :: es, _ => stepFlags es b

/-- Pure reference semantics of the heartbeat: one `manage_running` call
per recorded flag value. -/
def runFlags : List Bool → Led → Led
  | [], led => led
  | f :: fs, led => runFlags fs (manage_running f led).1

/-! ## Predicates about interface groups -/

/-- A role is up when its group is empty (unconfigured, vacuously up) or
some member interface passes every bit of `check`. This is the condition
under which `check_if_list` reports its `flag`. -/
def roleUp (statuses : List Nat) (check : Nat) (l : List IfEntry) : Prop :=
  l = [] ∨ ∃ e ∈ l, ifStatusOf statuses e &&& check = check

/-- No pending edge: every node's `prev_status` already matches its
interface's current status. -/
def noEdge (statuses : List Nat) (l : List IfEntry) : Prop :=
  ∀ e ∈ l, e.prev_status = ifStatusOf statuses e

/-- Some node carries a pending edge. -/
def anyEdge (statuses : List Nat) (l : List IfEntry) : Prop :=
  ∃ e ∈ l, e.prev_status ≠ ifStatusOf statuses e

/-- What one pass of the `check_if_list` loop does to one node: record the
current status as seen. -/
def refreshEntry (statuses : List Nat) (e : IfEntry) : IfEntry :=
  { e with prev_status := ifStatusOf statuses e }

/-- The limit the status-word if/else chain of `manage_net` derives from
the three role levels alone (the three conditions `status & 7 == 7`,
`status & 7 == 3`, `status & ETH_UP` expressed on the role booleans). -/
def netLevelLimit (e s t : Prop) [Decidable e] [Decidable s] [Decidable t] : Nat :=
  if e ∧ s ∧ t then MAXSTEPS
  else if e ∧ s then MAXSTEPS
  else if e then MAXSTEPS / 2
  else 0

instance (statuses : List Nat) (check : Nat) (l : List IfEntry) :
    Decidable (roleUp statuses check l) := by
  unfold roleUp; infer_instance

instance (statuses : List Nat) (l : List IfEntry) :
    Decidable (noEdge statuses l) := by
  unfold noEdge; infer_instance

instance (statuses : List Nat) (l : List IfEntry) :
    Decidable (anyEdge statuses l) := by
  unfold anyEdge; infer_instance

/-- Iterated disk steps under a constant activity counter `v`: the led is
stepped `n` times, each step reading the same cumulative count. -/
def diskIter (v : Nat) : Nat → Led → Led
  | 0, led => led
  | n + 1, led => diskIter v n (manage_disk led (some v)).1

/-! ## Concrete inputs used by witness theorems -/

def zeroCpu : CpuStatus := ⟨0, 0, 0, 0, 0⟩

def zeroIde : IdeStatus := ⟨0, 0, 0⟩

/-- Status table for the network witnesses: interface 0 present+up+link,
interface 1 admin-up, interface 2 absent. -/
def statusesW : List Nat := [6, 2, 0]

/-- Network led, state 1, cycle start; intf up, slave up, tun down; no
pending edge anywhere. -/
def ledNetW : Led :=
  ⟨LED_NET, 1, 0, [⟨0, 6⟩], [⟨1, 2⟩], [⟨2, 0⟩], zeroCpu, zeroIde, 0, 0, 0⟩

/-- Network led, state 1, cycle start; all roles up but the physical
interface carries a pending edge (prev_status 0 vs status 6). -/
def ledNetEdgeW : Led :=
  ⟨LED_NET, 1, 0, [⟨0, 0⟩], [⟨1, 2⟩], [], zeroCpu, zeroIde, 0, 0, 0⟩

/-- Disk led just after bootstrap: idle state 1, counters at zero. -/
def ledDiskW : Led :=
  ⟨LED_DISK, 1, 0, [], [], [], zeroCpu, ⟨0, 0, 0⟩, 0, 0, 0⟩

/-- Three consecutive disk steps under continuing activity: the counter
moves 0 → 5 → 9, so both the idle-state resample and the on-state
resample see a nonzero delta. -/
def diskStep1 : Led × Option Bool := manage_disk ledDiskW (some 5)

def diskStep2 : Led × Option Bool := manage_disk diskStep1.1 (some 9)

def diskStep3 : Led × Option Bool := manage_disk diskStep2.1 (some 9)

/-- Disk led idling: state 1 with retained count 5 equal to the sampled
counter, so every delta is zero. -/
def ledDiskIdleW : Led :=
  ⟨LED_DISK, 1, 0, [], [], [], zeroCpu, ⟨0, 5, 0⟩, 0, 0, 0⟩

/-- Cpu led after bootstrap: state 1, retained samples (1,100)/(0,100),
usage 50, resample due (limit 0). The sample (200,100) drives the usage
to 100, a jump of 50 points. -/
def ledCpuW : Led :=
  ⟨LED_CPU, 1, 0, [], [], [], ⟨1, 100, 0, 100, 50⟩, zeroIde, 0, 0, 0⟩

/-- Heartbeat led in the "on" phase entry state. -/
def ledRunW : Led :=
  ⟨LED_RUNNING, 1, 0, [], [], [], zeroCpu, zeroIde, 0, 0, 0⟩

/-- An unused led slot as the static zero initialization leaves it. -/
def ledUnusedW : Led :=
  ⟨LED_UNUSED, 0, 0, [], [], [], zeroCpu, zeroIde, 0, 0, 0⟩

/-- Loop state at the first pass with one heartbeat led configured on
slot 1 and no network interfaces. -/
def sysW : Sys := ⟨[ledRunW, ledUnusedW, ledUnusedW], [], 0, 0, false⟩

/-- An environment in which every /proc read fails. -/
def envW : Env := ⟨[], fun _ => none, fun _ => none⟩

/-! ## Lemmas about `check_if_list` -/

theorem refreshEntry_eq_self (statuses : List Nat) (e : IfEntry)
    (h : e.prev_status = ifStatusOf statuses e) :
    refreshEntry statuses e = e := by
  cases e with
  | mk i p =>
    have h' : p = statuses.getD i 0 := h
    simp [refreshEntry, ifStatusOf, List.getD] at h' ⊢
    exact h'.symm

theorem checkLoop_snd (statuses : List Nat) (check flag : Nat) (l : List IfEntry) :
    (checkLoop statuses check flag l).2 = l.map (refreshEntry statuses) := by
  induction l with
  | nil => rfl
  | cons e rest ih =>
    simp only [checkLoop, List.map_cons, ih]
    by_cases h : e.prev_status = ifStatusOf statuses e
    · simp [h, refreshEntry_eq_self statuses e h]
    · simp [h, refreshEntry]

theorem or_flag_merge (p q : Prop) [Decidable p] [Decidable q] (x : Nat) :
    (if p then x else 0) ||| (if q then x else 0) = if p ∨ q then x else 0 := by
  split_ifs with h1 h2 h2 <;> simp_all

theorem checkLoop_fst (statuses : List Nat) (check flag : Nat) (l : List IfEntry) :
    (checkLoop statuses check flag l).1 =
      (if ∃ e ∈ l, ifStatusOf statuses e &&& check = check then flag else 0) |||
      (if ∃ e ∈ l, e.prev_status ≠ ifStatusOf statuses e then LINK_CHANGED else 0) := by
  induction l with
  | nil => simp [checkLoop]
  | cons e rest ih =>
    simp only [checkLoop, ih]
    have hswap : ∀ b c d : Nat, b ||| (c ||| d) = c ||| (b ||| d) := by
      intro b c d
      rw [← Nat.or_assoc, Nat.or_comm b c, Nat.or_assoc]
    have hac : ∀ a b c d : Nat, a ||| b ||| (c ||| d) = (a ||| c) ||| (b ||| d) := by
      intro a b c d
      rw [Nat.or_assoc, hswap b c d, ← Nat.or_assoc]
    rw [hac, or_flag_merge, or_flag_merge]
    simp [List.exists_mem_cons_iff]

theorem check_if_list_snd (statuses : List Nat) (l : List IfEntry)
    (check flag : Nat) :
    (check_if_list statuses l check flag).2 = l.map (refreshEntry statuses) := by
  unfold check_if_list
  split_ifs with h
  · simp [h]
  · exact checkLoop_snd statuses check flag l

theorem check_if_list_fst_noEdge (statuses : List Nat) (l : List IfEntry)
    (check flag : Nat) (h : noEdge statuses l) :
    (check_if_list statuses l check flag).1 =
      if roleUp statuses check l then flag else 0 := by
  unfold check_if_list
  by_cases he : l = []
  · subst he
    simp [roleUp]
  · rw [if_neg he, checkLoop_fst]
    have hedge : ¬ ∃ e ∈ l, e.prev_status ≠ ifStatusOf statuses e := by
      push_neg
      intro e hmem
      exact h e hmem
    rw [if_neg hedge, Nat.or_zero]
    have hiff : roleUp statuses check l ↔
        ∃ e ∈ l, ifStatusOf statuses e &&& check = check := by
      unfold roleUp
      constructor
      · rintro (h1 | h1)
        · exact absurd h1 he
        · exact h1
      · exact Or.inr
    rw [eq_comm]
    exact if_congr hiff rfl rfl

theorem noEdge_refresh (statuses : List Nat) (l : List IfEntry) :
    noEdge statuses (l.map (refreshEntry statuses)) := by
  intro e he
  rcases List.mem_map.mp he with ⟨a, _, rfl⟩
  simp [refreshEntry, ifStatusOf]

theorem refresh_of_noEdge (statuses : List Nat) (l : List IfEntry)
    (h : noEdge statuses l) : l.map (refreshEntry statuses) = l := by
  induction l with
  | nil => rfl
  | cons e rest ih =>
    have h1 : e.prev_status = ifStatusOf statuses e := h e (by simp)
    have h2 : noEdge statuses rest := fun a ha => h a (by simp [ha])
    simp only [List.map_cons, ih h2]
    rw [refreshEntry_eq_self statuses e h1]

theorem check_if_list_fst_cons (statuses : List Nat) (e : IfEntry)
    (rest : List IfEntry) (check flag : Nat) :
    (check_if_list statuses (e :: rest) check flag).1 =
      (if ∃ a ∈ e :: rest, ifStatusOf statuses a &&& check = check then flag
       else 0) |||
      (if anyEdge statuses (e :: rest) then LINK_CHANGED else 0) := by
  rw [check_if_list, if_neg (by simp), checkLoop_fst]
  rfl

theorem or_mask_and_self (x y : Nat) : (x ||| y) &&& y = y := by
  apply Nat.eq_of_testBit_eq
  intro j
  simp only [Nat.testBit_and, Nat.testBit_or]
  cases x.testBit j <;> cases y.testBit j <;> rfl

/-! ## Claims about the counter adapters -/

theorem update_cpu_usage_le (c : CpuStatus) (sample : Option (Nat × Nat))
    (h : c.cpu_usage ≤ 100) : (update_cpu c sample).1.cpu_usage ≤ 100 := by
  cases sample with
  | none => exact h
  | some p =>
    obtain ⟨t, i⟩ := p
    simp only [update_cpu]
    split_ifs <;> omega

theorem update_cpu_total1 (c : CpuStatus) (t i : Nat) :
    (update_cpu c (some (t, i))).1.cpu_total1 = t % U32 := by
  simp [update_cpu]

theorem update_cpu_zero_delta (c : CpuStatus) (t i : Nat)
    (h : c.cpu_usage ≤ 100)
    (hz : (t % U32 + U32 - c.cpu_total1) % U32 = 0) :
    (update_cpu c (some (t, i))).1.cpu_usage = c.cpu_usage := by
  simp only [update_cpu, hz]
  split_ifs <;> omega

/-- C9: when the status file cannot be read (`readfile <= 0`), `update_cpu`
and `update_disk` return 0 and leave every counter field (`cpu_total`,
`cpu_idle`, `cpu_usage`; `count`, `disk_usage`) exactly as it was: the
indicator holds its last known value. -/
theorem update_holds_state_on_read_failure (c : CpuStatus) (d : IdeStatus) :
    update_cpu c none = (c, 0) ∧ update_disk d none = (d, 0) :=
  ⟨rfl, rfl⟩

/-- C3: starting from any in-range usage, after `update_cpu` the usage is
still within [0, 100] (the lower bound is inherent to `Nat`); when the
delta of total time between the two retained samples is 0 — the guard
`cpu_total[0] && total` fails — the division is skipped and `cpu_usage`
keeps its previous value; in particular a second call with the identical
sample leaves the usage unchanged. -/
theorem update_cpu_usage_bounds (c : CpuStatus) (sample : Option (Nat × Nat))
    (t i : Nat) (h : c.cpu_usage ≤ 100) :
    (update_cpu c sample).1.cpu_usage ≤ 100 ∧
    (sample = some (t, i) → (t % U32 + U32 - c.cpu_total1) % U32 = 0 →
      (update_cpu c sample).1.cpu_usage = c.cpu_usage) ∧
    (update_cpu (update_cpu c (some (t, i))).1 (some (t, i))).1.cpu_usage =
      (update_cpu c (some (t, i))).1.cpu_usage := by
  refine ⟨update_cpu_usage_le c sample h, ?_, ?_⟩
  · rintro rfl hz
    exact update_cpu_zero_delta c t i h hz
  · apply update_cpu_zero_delta
    · exact update_cpu_usage_le c (some (t, i)) h
    · rw [update_cpu_total1]
      simp only [U32]
      omega

theorem update_cpu_usage_bounds_witness :
    ((⟨0, 100, 0, 100, 50⟩ : CpuStatus).cpu_usage ≤ 100) ∧
    ((update_cpu ⟨0, 100, 0, 100, 50⟩ (some (100, 100))).1.cpu_usage ≤ 100 ∧
     (some ((100 : Nat), (100 : Nat)) = some (100, 100) →
       (100 % U32 + U32 - (⟨0, 100, 0, 100, 50⟩ : CpuStatus).cpu_total1) % U32 = 0 →
       (update_cpu ⟨0, 100, 0, 100, 50⟩ (some (100, 100))).1.cpu_usage =
         (⟨0, 100, 0, 100, 50⟩ : CpuStatus).cpu_usage) ∧
     (update_cpu (update_cpu ⟨0, 100, 0, 100, 50⟩ (some (100, 100))).1
         (some (100, 100))).1.cpu_usage =
       (update_cpu ⟨0, 100, 0, 100, 50⟩ (some (100, 100))).1.cpu_usage) :=
  ⟨by decide, update_cpu_usage_bounds ⟨0, 100, 0, 100, 50⟩ (some (100, 100))
    100 100 (by decide)⟩

/-! ## Claims about `check_if_list` -/

/-- C8: `check_if_list` on an empty (NULL) list returns `flag` immediately
for every check mask and flag value: an unconfigured role is vacuously up
and never forces the aggregate status down. -/
theorem check_if_list_empty_reports_up (statuses : List Nat)
    (check flag : Nat) :
    check_if_list statuses [] check flag = (flag, []) := rfl

/-- C10: after a call of `check_if_list`, every node's `prev_status` equals
its interface's current status; a pending edge makes the call report
`LINK_CHANGED`, and a second call with unchanged statuses reports no
`LINK_CHANGED` and changes nothing: the edge is consumed when observed. -/
theorem check_if_list_consumes_edges (statuses : List Nat)
    (l : List IfEntry) (check flag : Nat)
    (hf : flag &&& LINK_CHANGED = 0) :
    (∀ e ∈ (check_if_list statuses l check flag).2,
       e.prev_status = ifStatusOf statuses e) ∧
    (anyEdge statuses l →
       (check_if_list statuses l check flag).1 &&& LINK_CHANGED ≠ 0) ∧
    (check_if_list statuses (check_if_list statuses l check flag).2
        check flag).1 &&& LINK_CHANGED = 0 ∧
    (check_if_list statuses (check_if_list statuses l check flag).2
        check flag).2 = (check_if_list statuses l check flag).2 := by
  have hsnd := check_if_list_snd statuses l check flag
  have hne : noEdge statuses (check_if_list statuses l check flag).2 := by
    rw [hsnd]; exact noEdge_refresh statuses l
  refine ⟨hne, ?_, ?_, ?_⟩
  · intro hedge
    have hnil : l ≠ [] := by
      obtain ⟨e, he, _⟩ := hedge
      intro hl
      rw [hl] at he
      simp at he
    rw [check_if_list, if_neg hnil, checkLoop_fst]
    rw [if_pos (show ∃ e ∈ l, e.prev_status ≠ ifStatusOf statuses e from hedge)]
    rw [or_mask_and_self]
    simp [LINK_CHANGED]
  · rw [check_if_list_fst_noEdge _ _ _ _ hne]
    split_ifs with hup
    · exact hf
    · simp
  · rw [check_if_list_snd, refresh_of_noEdge _ _ hne]

theorem check_if_list_consumes_edges_witness :
    ((1 : Nat) &&& LINK_CHANGED = 0) ∧
    ((∀ e ∈ (check_if_list [6] [⟨0, 0⟩] 6 1).2,
        e.prev_status = ifStatusOf [6] e) ∧
     (anyEdge [6] [⟨0, 0⟩] →
        (check_if_list [6] [⟨0, 0⟩] 6 1).1 &&& LINK_CHANGED ≠ 0) ∧
     (check_if_list [6] (check_if_list [6] [⟨0, 0⟩] 6 1).2 6 1).1 &&&
        LINK_CHANGED = 0 ∧
     (check_if_list [6] (check_if_list [6] [⟨0, 0⟩] 6 1).2 6 1).2 =
        (check_if_list [6] [⟨0, 0⟩] 6 1).2) :=
  ⟨by decide, check_if_list_consumes_edges [6] [⟨0, 0⟩] 6 1 (by decide)⟩

/-! ## Claims about `manage_net` -/

theorem check_if_list_fst_full (statuses : List Nat) (l : List IfEntry)
    (check flag : Nat) :
    (check_if_list statuses l check flag).1 =
      (if roleUp statuses check l then flag else 0) |||
      (if anyEdge statuses l then LINK_CHANGED else 0) := by
  by_cases he : l = []
  · subst he
    simp [check_if_list, roleUp, anyEdge]
  · rw [check_if_list, if_neg he, checkLoop_fst]
    have hiff : (∃ e ∈ l, ifStatusOf statuses e &&& check = check) ↔
        roleUp statuses check l := by
      unfold roleUp
      constructor
      · exact Or.inr
      · rintro (h1 | h1)
        · exact absurd h1 he
        · exact h1
    congr 1
    exact if_congr hiff rfl rfl

theorem not_anyEdge_of_noEdge (statuses : List Nat) (l : List IfEntry)
    (h : noEdge statuses l) : ¬ anyEdge statuses l := by
  rintro ⟨e, he, hne⟩
  exact hne (h e he)

theorem netEval_count (statuses : List Nat) (led : Led) :
    (netEval statuses led).count = led.count := rfl

theorem netEval_state (statuses : List Nat) (led : Led) :
    (netEval statuses led).state = led.state := rfl

theorem netEval_limit (statuses : List Nat) (led : Led) :
    (netEval statuses led).limit =
      netLevelLimit (roleUp statuses IF_CHECK_BOTH led.intf)
        (roleUp statuses IF_CHECK_LOGICAL led.slave)
        (roleUp statuses IF_CHECK_LOGICAL led.tun) := by
  simp only [netEval]
  rw [check_if_list_fst_full, check_if_list_fst_full, check_if_list_fst_full]
  by_cases he : roleUp statuses IF_CHECK_BOTH led.intf <;>
    by_cases hs : roleUp statuses IF_CHECK_LOGICAL led.slave <;>
    by_cases ht : roleUp statuses IF_CHECK_LOGICAL led.tun <;>
    by_cases h1 : anyEdge statuses led.intf <;>
    by_cases h2 : anyEdge statuses led.slave <;>
    by_cases h3 : anyEdge statuses led.tun <;>
    simp [he, hs, ht, h1, h2, h3, netLevelLimit] <;>
    try decide

theorem netEval_flash (statuses : List Nat) (led : Led) :
    (netEval statuses led).flash =
      if anyEdge statuses led.intf ∨ anyEdge statuses led.slave ∨
          anyEdge statuses led.tun then 1
      else if roleUp statuses IF_CHECK_BOTH led.intf ∧
          roleUp statuses IF_CHECK_LOGICAL led.slave ∧
          ¬ roleUp statuses IF_CHECK_LOGICAL led.tun then 2
      else 0 := by
  simp only [netEval]
  rw [check_if_list_fst_full, check_if_list_fst_full, check_if_list_fst_full]
  by_cases he : roleUp statuses IF_CHECK_BOTH led.intf <;>
    by_cases hs : roleUp statuses IF_CHECK_LOGICAL led.slave <;>
    by_cases ht : roleUp statuses IF_CHECK_LOGICAL led.tun <;>
    by_cases h1 : anyEdge statuses led.intf <;>
    by_cases h2 : anyEdge statuses led.slave <;>
    by_cases h3 : anyEdge statuses led.tun <;>
    simp [he, hs, ht, h1, h2, h3] <;>
    try decide

theorem manage_net_state1_count0 (statuses : List Nat) (led : Led)
    (hs : led.state = 1) (hc : led.count = 0) :
    (manage_net statuses led).1.limit = (netEval statuses led).limit ∧
    (manage_net statuses led).1.flash = (netEval statuses led).flash := by
  obtain ⟨ty, st, sl, li, ls, lt, c, d, cnt, lim, fl⟩ := led
  have hs' : st = 1 := hs
  have hc' : cnt = 0 := hc
  subst hs'
  subst hc'
  simp only [manage_net, netEval_count, netEval_state]
  norm_num
  split_ifs <;> simp_all

/-- C1: for every combination of the three roles' aggregate levels, one
call of `manage_net` in state 1 with `count = 0` (and no pending edge, so
the level pattern is not overridden) derives the (limit, flash) pair of
the level table: all three roles up gives `limit = MAXSTEPS` and
`flash = 0`; physical and slave up but tunnel down gives
`limit = MAXSTEPS` and `flash = 2`; physical up with slave down gives
`limit = MAXSTEPS / 2` whatever the tunnel level; physical down gives
`limit = 0` regardless of the other roles. -/
theorem manage_net_level_table (statuses : List Nat) (led : Led)
    (hs : led.state = 1) (hc : led.count = 0)
    (h1 : noEdge statuses led.intf) (h2 : noEdge statuses led.slave)
    (h3 : noEdge statuses led.tun) :
    (roleUp statuses IF_CHECK_BOTH led.intf →
      roleUp statuses IF_CHECK_LOGICAL led.slave →
      roleUp statuses IF_CHECK_LOGICAL led.tun →
      (manage_net statuses led).1.limit = MAXSTEPS ∧
        (manage_net statuses led).1.flash = 0) ∧
    (roleUp statuses IF_CHECK_BOTH led.intf →
      roleUp statuses IF_CHECK_LOGICAL led.slave →
      ¬ roleUp statuses IF_CHECK_LOGICAL led.tun →
      (manage_net statuses led).1.limit = MAXSTEPS ∧
        (manage_net statuses led).1.flash = 2) ∧
    (roleUp statuses IF_CHECK_BOTH led.intf →
      ¬ roleUp statuses IF_CHECK_LOGICAL led.slave →
      (manage_net statuses led).1.limit = MAXSTEPS / 2) ∧
    (¬ roleUp statuses IF_CHECK_BOTH led.intf →
      (manage_net statuses led).1.limit = 0) := by
  obtain ⟨hlim, hfl⟩ := manage_net_state1_count0 statuses led hs hc
  rw [hlim, hfl, netEval_limit, netEval_flash]
  have e1 := not_anyEdge_of_noEdge statuses led.intf h1
  have e2 := not_anyEdge_of_noEdge statuses led.slave h2
  have e3 := not_anyEdge_of_noEdge statuses led.tun h3
  constructor
  · intro ha hb hc2
    simp [netLevelLimit, e1, e2, e3, ha, hb, hc2]
  constructor
  · intro ha hb hc2
    simp [netLevelLimit, e1, e2, e3, ha, hb, hc2]
  constructor
  · intro ha hb
    simp [netLevelLimit, e1, e2, e3, ha, hb]
  · intro ha
    simp [netLevelLimit, e1, e2, e3, ha]

theorem manage_net_level_table_witness :
    (ledNetW.state = 1 ∧ ledNetW.count = 0 ∧
     noEdge statusesW ledNetW.intf ∧ noEdge statusesW ledNetW.slave ∧
     noEdge statusesW ledNetW.tun) ∧
    ((roleUp statusesW IF_CHECK_BOTH ledNetW.intf →
      roleUp statusesW IF_CHECK_LOGICAL ledNetW.slave →
      roleUp statusesW IF_CHECK_LOGICAL ledNetW.tun →
      (manage_net statusesW ledNetW).1.limit = MAXSTEPS ∧
        (manage_net statusesW ledNetW).1.flash = 0) ∧
    (roleUp statusesW IF_CHECK_BOTH ledNetW.intf →
      roleUp statusesW IF_CHECK_LOGICAL ledNetW.slave →
      ¬ roleUp statusesW IF_CHECK_LOGICAL ledNetW.tun →
      (manage_net statusesW ledNetW).1.limit = MAXSTEPS ∧
        (manage_net statusesW ledNetW).1.flash = 2) ∧
    (roleUp statusesW IF_CHECK_BOTH ledNetW.intf →
      ¬ roleUp statusesW IF_CHECK_LOGICAL ledNetW.slave →
      (manage_net statusesW ledNetW).1.limit = MAXSTEPS / 2) ∧
    (¬ roleUp statusesW IF_CHECK_BOTH ledNetW.intf →
      (manage_net statusesW ledNetW).1.limit = 0)) :=
  ⟨⟨rfl, rfl, by decide, by decide, by decide⟩,
   manage_net_level_table statusesW ledNetW rfl rfl
     (by decide) (by decide) (by decide)⟩

/-- C7: when any monitored interface's status differs from its previously
observed status, the state-1 `count = 0` evaluation of `manage_net` sets
`flash = 1` — exactly one extra short flash at the start of the cycle —
while `limit` stays exactly the value derived from the role levels. -/
theorem manage_net_edge_single_flash (statuses : List Nat) (led : Led)
    (hs : led.state = 1) (hc : led.count = 0)
    (hedge : anyEdge statuses led.intf ∨ anyEdge statuses led.slave ∨
      anyEdge statuses led.tun) :
    (manage_net statuses led).1.flash = 1 ∧
    (manage_net statuses led).1.limit =
      netLevelLimit (roleUp statuses IF_CHECK_BOTH led.intf)
        (roleUp statuses IF_CHECK_LOGICAL led.slave)
        (roleUp statuses IF_CHECK_LOGICAL led.tun) := by
  obtain ⟨hlim, hfl⟩ := manage_net_state1_count0 statuses led hs hc
  rw [hlim, hfl, netEval_limit, netEval_flash]
  simp [hedge]

theorem manage_net_edge_single_flash_witness :
    (ledNetEdgeW.state = 1 ∧ ledNetEdgeW.count = 0 ∧
      (anyEdge statusesW ledNetEdgeW.intf ∨ anyEdge statusesW ledNetEdgeW.slave ∨
       anyEdge statusesW ledNetEdgeW.tun)) ∧
    ((manage_net statusesW ledNetEdgeW).1.flash = 1 ∧
     (manage_net statusesW ledNetEdgeW).1.limit =
       netLevelLimit (roleUp statusesW IF_CHECK_BOTH ledNetEdgeW.intf)
         (roleUp statusesW IF_CHECK_LOGICAL ledNetEdgeW.slave)
         (roleUp statusesW IF_CHECK_LOGICAL ledNetEdgeW.tun)) :=
  ⟨⟨rfl, rfl, by decide⟩,
   manage_net_edge_single_flash statusesW ledNetEdgeW rfl rfl (by decide)⟩

/-! ## Claims about `manage_disk` -/

theorem manage_disk_idle_step (led : Led) (v : Nat) (h1 : led.state = 1)
    (hc : led.ide.count1 = v % U32) :
    (manage_disk led (some v)).1.state = 1 ∧
    (manage_disk led (some v)).1.ide.count1 = v % U32 := by
  have hz : (v % U32 + U32 - led.ide.count1) % U32 = 0 := by
    rw [hc]
    simp only [U32]
    omega
  simp [manage_disk, h1, update_disk, hz]

theorem manage_disk_idle_iter (led : Led) (v n : Nat) (h1 : led.state = 1)
    (hc : led.ide.count1 = v % U32) :
    (diskIter v n led).state = 1 := by
  induction n generalizing led with
  | zero => simpa [diskIter] using h1
  | succ n ih =>
    have step := manage_disk_idle_step led v h1 hc
    simp only [diskIter]
    exact ih _ step.1 step.2

/-- C4 counterexample: with continuing activity (counter 0 → 5 → 9) the
automaton leaves idle (state 2, on 100 ms), flashes off (state 3, 25 ms),
and then starts the next pulse immediately (state 2 again, output on)
without ever returning to the idle state 1 — refuting "returns to the
idle state before any further pulse". -/
theorem manage_disk_pulse_cex :
    diskStep1.1.state = 2 ∧ diskStep1.2 = some true ∧
    diskStep1.1.sleep = SLEEP_1SEC * 100 / 1000 ∧
    diskStep2.1.state = 3 ∧ diskStep2.2 = some false ∧
    diskStep2.1.sleep = SLEEP_1SEC * 25 / 1000 ∧
    diskStep3.1.state = 2 ∧ diskStep3.2 = some true ∧
    ¬ diskStep3.1.state = 1 := by decide

/-- C4 (amended): after bootstrap, a zero sampled delta keeps the machine
in the idle off state (250 ms periods, forever while deltas stay zero,
never a pulse); a nonzero sampled delta produces a pulse of exactly on for
100 ms (state 2) then off for 25 ms (state 3); after the off sub-state the
machine returns to idle exactly when the delta resampled at the start of
the on sub-state was zero — if that delta was nonzero the next pulse
begins immediately, without passing through idle. -/
theorem manage_disk_pulse_behaviour (led : Led) (sample : Option Nat)
    (v n : Nat) :
    (led.state = 1 → (update_disk led.ide sample).1.disk_usage = 0 →
      (manage_disk led sample).1.state = 1 ∧
      (manage_disk led sample).2 = some false ∧
      (manage_disk led sample).1.sleep = SLEEP_1SEC * 250 / 1000) ∧
    (led.state = 1 → (update_disk led.ide sample).1.disk_usage ≠ 0 →
      (manage_disk led sample).1.state = 2 ∧
      (manage_disk led sample).2 = some true ∧
      (manage_disk led sample).1.sleep = SLEEP_1SEC * 100 / 1000) ∧
    (led.state = 2 →
      (manage_disk led sample).1.state = 3 ∧
      (manage_disk led sample).2 = some false ∧
      (manage_disk led sample).1.sleep = SLEEP_1SEC * 25 / 1000) ∧
    (led.state = 3 →
      (led.ide.disk_usage = 0 → (manage_disk led sample).1.state = 1 ∧
        (manage_disk led sample).2 = some false) ∧
      (led.ide.disk_usage ≠ 0 → (manage_disk led sample).1.state = 2 ∧
        (manage_disk led sample).2 = some true)) ∧
    (led.state = 1 → led.ide.count1 = v % U32 →
      (diskIter v n led).state = 1) := by
  refine ⟨?_, ?_, ?_, ?_, ?_⟩
  · intro h1 hz
    simp [manage_disk, h1, hz]
  · intro h1 hz
    simp [manage_disk, h1, hz]
  · intro h2
    simp [manage_disk, h2]
  · intro h3
    constructor
    · intro hz
      simp [manage_disk, h3, hz]
    · intro hz
      simp [manage_disk, h3, hz]
  · intro h1 hc
    exact manage_disk_idle_iter led v n h1 hc

theorem manage_disk_pulse_behaviour_witness :
    ((ledDiskIdleW.state = 1 →
       (update_disk ledDiskIdleW.ide (some 5)).1.disk_usage = 0 →
       (manage_disk ledDiskIdleW (some 5)).1.state = 1 ∧
       (manage_disk ledDiskIdleW (some 5)).2 = some false ∧
       (manage_disk ledDiskIdleW (some 5)).1.sleep = SLEEP_1SEC * 250 / 1000) ∧
     (ledDiskIdleW.state = 1 →
       (update_disk ledDiskIdleW.ide (some 5)).1.disk_usage ≠ 0 →
       (manage_disk ledDiskIdleW (some 5)).1.state = 2 ∧
       (manage_disk ledDiskIdleW (some 5)).2 = some true ∧
       (manage_disk ledDiskIdleW (some 5)).1.sleep = SLEEP_1SEC * 100 / 1000) ∧
     (ledDiskIdleW.state = 2 →
       (manage_disk ledDiskIdleW (some 5)).1.state = 3 ∧
       (manage_disk ledDiskIdleW (some 5)).2 = some false ∧
       (manage_disk ledDiskIdleW (some 5)).1.sleep = SLEEP_1SEC * 25 / 1000) ∧
     (ledDiskIdleW.state = 3 →
       (ledDiskIdleW.ide.disk_usage = 0 →
         (manage_disk ledDiskIdleW (some 5)).1.state = 1 ∧
         (manage_disk ledDiskIdleW (some 5)).2 = some false) ∧
       (ledDiskIdleW.ide.disk_usage ≠ 0 →
         (manage_disk ledDiskIdleW (some 5)).1.state = 2 ∧
         (manage_disk ledDiskIdleW (some 5)).2 = some true)) ∧
     (ledDiskIdleW.state = 1 → ledDiskIdleW.ide.count1 = 5 % U32 →
       (diskIter 5 3 ledDiskIdleW).state = 1)) :=
  manage_disk_pulse_behaviour ledDiskIdleW (some 5) 5 3

/-! ## Claims about `manage_cpu` -/

/-- C5 counterexample: at usage jumping 50 → 100 (a change of 50 ≥ 10
points), `manage_cpu` schedules `limit = 100 / 50 = 2`, not the
"ten times shorter" value `(100 / 10) / 10 = 1` the claim demands. -/
theorem manage_cpu_fast_resample_cex :
    (10 : Nat) ≤ (((update_cpu ledCpuW.cpu (some (200, 100))).1.cpu_usage : Int) -
        (ledCpuW.cpu.cpu_usage : Int)).natAbs ∧
    (manage_cpu ledCpuW (some (200, 100))).1.limit = 2 ∧
    (manage_cpu ledCpuW (some (200, 100))).1.limit ≠
      (update_cpu ledCpuW.cpu (some (200, 100))).1.cpu_usage / 10 / 10 := by
  decide

/-- C5 (amended): on a resample (state nonzero, count reaching limit),
a change of the load percentage below 10 points schedules the next
resample after `limit = usage / 10` ticks, proportional to the current
load; a change of 10 points or more schedules `limit = usage / 50` — five
times shorter than the small-change interval for the same load
(`usage / 50 = (usage / 10) / 5`), not ten times. -/
theorem manage_cpu_resample_schedule (led : Led) (sample : Option (Nat × Nat))
    (h0 : led.state ≠ 0) (hdue : led.count + 1 ≥ led.limit) :
    ((((update_cpu led.cpu sample).1.cpu_usage : Int) -
        (led.cpu.cpu_usage : Int)).natAbs < 10 →
      (manage_cpu led sample).1.limit =
        (update_cpu led.cpu sample).1.cpu_usage / 10) ∧
    (10 ≤ (((update_cpu led.cpu sample).1.cpu_usage : Int) -
        (led.cpu.cpu_usage : Int)).natAbs →
      (manage_cpu led sample).1.limit =
        (update_cpu led.cpu sample).1.cpu_usage / 50 ∧
      (manage_cpu led sample).1.limit =
        (update_cpu led.cpu sample).1.cpu_usage / 10 / 5) := by
  constructor
  · intro hd
    simp only [manage_cpu, if_neg h0, if_pos hdue]
    simp only [if_pos hd]
    split_ifs <;> simp
  · intro hd
    have hd' : ¬ (((update_cpu led.cpu sample).1.cpu_usage : Int) -
        (led.cpu.cpu_usage : Int)).natAbs < 10 := by omega
    have hdd : (update_cpu led.cpu sample).1.cpu_usage / 10 / 5 =
        (update_cpu led.cpu sample).1.cpu_usage / 50 := by
      rw [Nat.div_div_eq_div_mul]
    simp only [manage_cpu, if_neg h0, if_pos hdue]
    simp only [if_neg hd']
    rw [hdd]
    split_ifs <;> simp

theorem manage_cpu_resample_schedule_witness :
    (ledCpuW.state ≠ 0 ∧ ledCpuW.count + 1 ≥ ledCpuW.limit) ∧
    (((((update_cpu ledCpuW.cpu (some (200, 100))).1.cpu_usage : Int) -
        (ledCpuW.cpu.cpu_usage : Int)).natAbs < 10 →
      (manage_cpu ledCpuW (some (200, 100))).1.limit =
        (update_cpu ledCpuW.cpu (some (200, 100))).1.cpu_usage / 10) ∧
    (10 ≤ ((((update_cpu ledCpuW.cpu (some (200, 100))).1.cpu_usage : Int) -
        (ledCpuW.cpu.cpu_usage : Int)).natAbs) →
      (manage_cpu ledCpuW (some (200, 100))).1.limit =
        (update_cpu ledCpuW.cpu (some (200, 100))).1.cpu_usage / 50 ∧
      (manage_cpu ledCpuW (some (200, 100))).1.limit =
        (update_cpu ledCpuW.cpu (some (200, 100))).1.cpu_usage / 10 / 5)) :=
  ⟨⟨by decide, by decide⟩,
   manage_cpu_resample_schedule ledCpuW (some (200, 100))
     (by decide) (by decide)⟩

/-! ## Claims about `manage_running` and the rate flag -/

theorem runEvents_led_eq_runFlags (es : List RunEvent) (s : RunSys) :
    (runEvents es s).led = runFlags (stepFlags es s.fast_mode) s.led := by
  induction es generalizing s with
  | nil => rfl
  | cons e es ih =>
    cases e with
    | step => simp [runEvents, runEvent, stepFlags, runFlags, ih]
    | sig b => simp [runEvents, runEvent, stepFlags, ih]

/-- C6: the heartbeat reads the shared `fast_mode` flag only when it opens
a phase: a signal delivery never changes the led (in particular not the
remaining duration of the phase in progress), the step following a signal
uses exactly the newly stored flag, and any two interleavings whose
per-step flag values agree produce identical led trajectories — so
flipping the flag mid-phase takes effect only at the next phase
boundary. -/
theorem manage_running_phase_boundary (es1 es2 : List RunEvent) (led : Led)
    (f1 f2 b : Bool) (s : RunSys)
    (h : stepFlags es1 f1 = stepFlags es2 f2) :
    (runEvents es1 ⟨led, f1⟩).led = (runEvents es2 ⟨led, f2⟩).led ∧
    (runEvent (RunEvent.sig b) s).led = s.led ∧
    (runEvent RunEvent.step (runEvent (RunEvent.sig b) s)).led =
      (manage_running b s.led).1 := by
  refine ⟨?_, rfl, rfl⟩
  rw [runEvents_led_eq_runFlags, runEvents_led_eq_runFlags]
  simp only [h]

theorem manage_running_phase_boundary_witness :
    (stepFlags [RunEvent.step, RunEvent.sig true, RunEvent.step] false =
      stepFlags [RunEvent.sig false, RunEvent.step, RunEvent.sig true,
        RunEvent.step] true) ∧
    ((runEvents [RunEvent.step, RunEvent.sig true, RunEvent.step]
        ⟨ledRunW, false⟩).led =
      (runEvents [RunEvent.sig false, RunEvent.step, RunEvent.sig true,
        RunEvent.step] ⟨ledRunW, true⟩).led ∧
     (runEvent (RunEvent.sig true) ⟨ledRunW, false⟩).led =
       (⟨ledRunW, false⟩ : RunSys).led ∧
     (runEvent RunEvent.step (runEvent (RunEvent.sig true)
        ⟨ledRunW, false⟩)).led =
       (manage_running true (⟨ledRunW, false⟩ : RunSys).led).1) :=
  ⟨by decide,
   manage_running_phase_boundary _ _ ledRunW false true true ⟨ledRunW, false⟩
     (by decide)⟩

/-! ## Scheduler-pass lemmas: the manage functions preserve the type and
always re-arm a positive delay -/

theorem netEval_type (statuses : List Nat) (led : Led) :
    (netEval statuses led).type = led.type := rfl

theorem manage_net_type (statuses : List Nat) (led : Led)
    (h : led.state ≤ 4) :
    (manage_net statuses led).1.type = led.type := by
  obtain ⟨ty, st, sl, li, ls, lt, c, d, cnt, lim, fl⟩ := led
  have h' : st ≤ 4 := h
  interval_cases st <;>
    · simp only [manage_net]
      norm_num [netEval_count, netEval_state]
      all_goals try split_ifs
      all_goals simp [netEval_type]

theorem manage_running_type (fast : Bool) (led : Led) (h : led.state ≤ 2) :
    (manage_running fast led).1.type = led.type := by
  obtain ⟨ty, st, sl, li, ls, lt, c, d, cnt, lim, fl⟩ := led
  have h' : st ≤ 2 := h
  interval_cases st <;>
    · simp only [manage_running]
      all_goals norm_num

theorem manage_cpu_type (led : Led) (sample : Option (Nat × Nat))
    (h : led.state ≤ 2) :
    (manage_cpu led sample).1.type = led.type := by
  obtain ⟨ty, st, sl, li, ls, lt, c, d, cnt, lim, fl⟩ := led
  have h' : st ≤ 2 := h
  interval_cases st <;>
    · simp only [manage_cpu]
      all_goals norm_num
      all_goals try split_ifs
      all_goals rfl

theorem manage_disk_type (led : Led) (sample : Option Nat)
    (h : led.state ≤ 3) :
    (manage_disk led sample).1.type = led.type := by
  obtain ⟨ty, st, sl, li, ls, lt, c, d, cnt, lim, fl⟩ := led
  have h' : st ≤ 3 := h
  interval_cases st <;>
    · simp only [manage_disk]
      all_goals norm_num
      all_goals try split_ifs
      all_goals rfl

theorem manage_net_sleep_bounds (statuses : List Nat) (led : Led)
    (h : led.state ≤ 4) :
    0 < (manage_net statuses led).1.sleep ∧
    (manage_net statuses led).1.sleep ≤ SLEEP_500M := by
  obtain ⟨ty, st, sl, li, ls, lt, c, d, cnt, lim, fl⟩ := led
  have h' : st ≤ 4 := h
  interval_cases st <;>
    · simp only [manage_net]
      norm_num [netEval_count, netEval_state]
      all_goals try split_ifs
      all_goals simp [SLEEP_500M]

theorem manage_running_sleep_pos (fast : Bool) (led : Led)
    (h : led.state ≤ 2) :
    0 < (manage_running fast led).1.sleep := by
  obtain ⟨ty, st, sl, li, ls, lt, c, d, cnt, lim, fl⟩ := led
  have h' : st ≤ 2 := h
  interval_cases st <;>
    · simp only [manage_running]
      all_goals norm_num
      all_goals try split_ifs
      all_goals simp [SLEEP_1SEC]

theorem manage_cpu_sleep_pos (led : Led) (sample : Option (Nat × Nat))
    (h : led.state ≤ 2) (hu : led.cpu.cpu_usage ≤ 100) :
    0 < (manage_cpu led sample).1.sleep := by
  obtain ⟨ty, st, sl, li, ls, lt, c, d, cnt, lim, fl⟩ := led
  have h' : st ≤ 2 := h
  have hu' : c.cpu_usage ≤ 100 := hu
  have hupd : (update_cpu c sample).1.cpu_usage ≤ 100 :=
    update_cpu_usage_le c sample hu'
  interval_cases st
  · simp [manage_cpu, SLEEP_1SEC]
  · by_cases hdue : cnt + 1 ≥ lim
    · simp only [manage_cpu]
      norm_num [hdue]
      simp [SLEEP_1SEC]
      omega
    · simp only [manage_cpu]
      norm_num [hdue]
      simp [SLEEP_1SEC]
      omega
  · by_cases hdue : cnt + 1 ≥ lim
    · simp only [manage_cpu]
      norm_num [hdue]
      simp [SLEEP_1SEC]
      omega
    · simp only [manage_cpu]
      norm_num [hdue]
      simp [SLEEP_1SEC]
      omega

theorem manage_disk_sleep_pos (led : Led) (sample : Option Nat)
    (h : led.state ≤ 3) :
    0 < (manage_disk led sample).1.sleep := by
  obtain ⟨ty, st, sl, li, ls, lt, c, d, cnt, lim, fl⟩ := led
  have h' : st ≤ 3 := h
  interval_cases st <;>
    · simp only [manage_disk]
      all_goals norm_num
      all_goals try split_ifs
      all_goals simp_all [SLEEP_1SEC]

/-! ## Scheduler-pass lemmas: dispatch -/

theorem dispatchLed_type (statuses : List Nat) (fast : Bool) (env : Env)
    (i : Nat) (led : Led) (h : ledWF led) :
    (dispatchLed statuses fast env i led).type = led.type := by
  obtain ⟨ht4, hn, hr, hc, hd⟩ := h
  unfold dispatchLed
  split_ifs with h0 h1 h2 h3 h4 h5
  all_goals first
    | rfl
    | exact manage_net_type _ _ (hn (by assumption)).1
    | exact manage_running_type _ _ (hr (by assumption))
    | exact manage_cpu_type _ _ (hc (by assumption)).1
    | exact manage_disk_type _ _ (hd (by assumption))

theorem dispatchLed_sleep_pos (statuses : List Nat) (fast : Bool) (env : Env)
    (i : Nat) (led : Led) (h : ledWF led) (ht : led.type ≠ LED_UNUSED) :
    0 < (dispatchLed statuses fast env i led).sleep := by
  obtain ⟨ht4, hn, hr, hc, hd⟩ := h
  unfold dispatchLed
  split_ifs with h0 h1 h2 h3 h4 h5
  · exact absurd h0 ht
  · exact h1
  · exact (manage_net_sleep_bounds statuses led (hn h2).1).1
  · exact manage_running_sleep_pos fast led (hr h3)
  · exact manage_cpu_sleep_pos led _ (hc h4).1 (hc h4).2
  · exact manage_disk_sleep_pos led _ (hd h5)
  · exfalso
    simp only [LED_UNUSED, LED_NET, LED_RUNNING, LED_CPU, LED_DISK]
      at h0 h2 h3 h4 h5 ht4
    omega

theorem dispatchLed_net_sleep_le (statuses : List Nat) (fast : Bool)
    (env : Env) (i : Nat) (led : Led) (h : ledWF led)
    (ht : led.type = LED_NET) :
    (dispatchLed statuses fast env i led).sleep ≤ SLEEP_500M := by
  obtain ⟨ht4, hn, hr, hc, hd⟩ := h
  unfold dispatchLed
  rw [ht]
  norm_num [LED_NET, LED_UNUSED]
  split_ifs with h1
  · exact (hn ht).2
  · exact (manage_net_sleep_bounds statuses led (hn ht).1).2

theorem dispatchAll_mem (statuses : List Nat) (fast : Bool) (env : Env) :
    ∀ (l : List Led) (i : Nat) (led' : Led),
      led' ∈ dispatchAll statuses fast env i l →
      ∃ led ∈ l, ∃ j, led' = dispatchLed statuses fast env j led := by
  intro l
  induction l with
  | nil =>
    intro i led' h
    simp [dispatchAll] at h
  | cons x xs ih =>
    intro i led' h
    simp only [dispatchAll, List.mem_cons] at h
    rcases h with h | h
    · exact ⟨x, by simp, i, h⟩
    · obtain ⟨led, hm, j, hj⟩ := ih (i + 1) led' h
      exact ⟨led, by simp [hm], j, hj⟩

theorem dispatchAll_image_mem (statuses : List Nat) (fast : Bool) (env : Env) :
    ∀ (l : List Led) (i : Nat) (led : Led), led ∈ l →
      ∃ j, dispatchLed statuses fast env j led ∈
        dispatchAll statuses fast env i l := by
  intro l
  induction l with
  | nil =>
    intro i led h
    simp at h
  | cons x xs ih =>
    intro i led h
    rcases List.mem_cons.mp h with rfl | h
    · exact ⟨i, by simp [dispatchAll]⟩
    · obtain ⟨j, hj⟩ := ih (i + 1) led h
      exact ⟨j, by simp [dispatchAll, hj]⟩

/-! ## Scheduler-pass lemmas: the sleep-time fold -/

theorem computeSleepTime_cons (cap : Int) (led : Led) (l : List Led) :
    computeSleepTime cap (led :: l) =
      computeSleepTime
        (if led.type ≠ LED_UNUSED ∧ led.sleep < cap then led.sleep else cap)
        l := rfl

theorem computeSleepTime_le_cap (l : List Led) :
    ∀ cap : Int, computeSleepTime cap l ≤ cap := by
  induction l with
  | nil =>
    intro cap
    simp [computeSleepTime]
  | cons led l ih =>
    intro cap
    rw [computeSleepTime_cons]
    refine le_trans (ih _) ?_
    split_ifs with h
    · exact le_of_lt h.2
    · exact le_refl cap

theorem computeSleepTime_le_mem (l : List Led) :
    ∀ (cap : Int) (led : Led), led ∈ l → led.type ≠ LED_UNUSED →
      computeSleepTime cap l ≤ led.sleep := by
  induction l with
  | nil =>
    intro cap led h
    simp at h
  | cons x xs ih =>
    intro cap led hmem ht
    rcases List.mem_cons.mp hmem with rfl | hmem
    · rw [computeSleepTime_cons]
      refine le_trans (computeSleepTime_le_cap xs _) ?_
      split_ifs with h
      · exact le_refl _
      · push_neg at h
        exact h ht
    · rw [computeSleepTime_cons]
      exact ih _ led hmem ht

theorem computeSleepTime_pos (l : List Led) :
    ∀ cap : Int, 0 < cap →
      (∀ led ∈ l, led.type ≠ LED_UNUSED → 0 < led.sleep) →
      0 < computeSleepTime cap l := by
  induction l with
  | nil =>
    intro cap hc _
    simpa [computeSleepTime] using hc
  | cons x xs ih =>
    intro cap hc hall
    rw [computeSleepTime_cons]
    apply ih
    · split_ifs with h
      · exact hall x (by simp) h.1
      · exact hc
    · intro led hm ht
      exact hall led (by simp [hm]) ht

theorem computeSleepTime_min (l : List Led) :
    ∀ a b : Int, computeSleepTime (min a b) l =
      min a (computeSleepTime b l) := by
  induction l with
  | nil =>
    intro a b
    simp [computeSleepTime]
  | cons x xs ih =>
    intro a b
    rw [computeSleepTime_cons, computeSleepTime_cons]
    by_cases ht : x.type ≠ LED_UNUSED
    · have e1 : (if x.type ≠ LED_UNUSED ∧ x.sleep < min a b then x.sleep
          else min a b) = min (min a b) x.sleep := by
        split_ifs with h
        · exact (min_eq_right (le_of_lt h.2)).symm
        · push_neg at h
          exact (min_eq_left (h ht)).symm
      have e2 : (if x.type ≠ LED_UNUSED ∧ x.sleep < b then x.sleep else b) =
          min b x.sleep := by
        split_ifs with h
        · exact (min_eq_right (le_of_lt h.2)).symm
        · push_neg at h
          exact (min_eq_left (h ht)).symm
      rw [e1, e2, min_assoc]
      exact ih a (min b x.sleep)
    · rw [if_neg (fun h => ht h.1), if_neg (fun h => ht h.1)]
      exact ih a b

theorem computeSleepTime_cap_irrelevant (l : List Led) (c1 c2 : Int)
    (hc : c1 ≤ c2)
    (hex : ∃ led ∈ l, led.type ≠ LED_UNUSED ∧ led.sleep ≤ c1) :
    computeSleepTime c1 l = computeSleepTime c2 l := by
  obtain ⟨led, hm, ht, hs⟩ := hex
  have h1 : computeSleepTime c2 l ≤ c1 :=
    le_trans (computeSleepTime_le_mem l c2 led hm ht) hs
  rw [(min_eq_left hc).symm, computeSleepTime_min]
  exact min_eq_right h1

/-- Core of the scheduler-pass argument: after a dispatch over well-formed
leds, the computed sleep time is positive, and the initial cap (be it
`MAXSLEEP` or the network checker's `SLEEP_500M`) never shows through:
the fold equals the `MAXSLEEP`-capped minimum. -/
theorem dispatch_sleep_core (statuses1 : List Nat) (cap : Int) (fast : Bool)
    (env : Env) (leds : List Led) (hall : ∀ led ∈ leds, ledWF led)
    (hcap : 0 < cap) (hcap2 : cap ≤ MAXSLEEP)
    (hF2 : cap = MAXSLEEP ∨
      (cap = SLEEP_500M ∧ ∃ led ∈ leds, led.type = LED_NET)) :
    0 < computeSleepTime cap (dispatchAll statuses1 fast env 0 leds) ∧
    computeSleepTime cap (dispatchAll statuses1 fast env 0 leds) =
      computeSleepTime MAXSLEEP (dispatchAll statuses1 fast env 0 leds) := by
  have hF1 : ∀ led' ∈ dispatchAll statuses1 fast env 0 leds,
      led'.type ≠ LED_UNUSED → 0 < led'.sleep := by
    intro led' hm ht
    obtain ⟨led, hmem, j, rfl⟩ := dispatchAll_mem statuses1 fast env leds 0 led' hm
    have hw := hall led hmem
    have htt : led.type ≠ LED_UNUSED := by
      rwa [dispatchLed_type statuses1 fast env j led hw] at ht
    exact dispatchLed_sleep_pos statuses1 fast env j led hw htt
  refine ⟨computeSleepTime_pos _ cap hcap hF1, ?_⟩
  rcases hF2 with rfl | ⟨rfl, led, hm, htn⟩
  · rfl
  · apply computeSleepTime_cap_irrelevant _ _ _ hcap2
    obtain ⟨j, hj⟩ := dispatchAll_image_mem _ fast env leds 0 led hm
    refine ⟨dispatchLed _ fast env j led, hj, ?_, ?_⟩
    · rw [dispatchLed_type _ _ _ _ _ (hall led hm), htn]
      decide
    · exact dispatchLed_net_sleep_le _ fast env j led (hall led hm) htn

/-- C2: in every pass of the scheduler loop over a well-formed state, the
slept duration is non-negative (in fact positive), equals the minimum of
the active leds' remaining delays capped by `MAXSLEEP` when none is
smaller (the `SLEEP_500M` initialization used when the network checker ran
never wins, because the network led's own delay is at most `SLEEP_500M`),
and after the sleep every active led's remaining delay has decreased by
exactly that duration. -/
theorem scheduler_pass_sleep (env : Env) (s : Sys) (hwf : sysWF s) :
    0 ≤ (schedPass env s).2 ∧
    (schedPass env s).2 =
      computeSleepTime MAXSLEEP (schedPassDispatch env s).1.leds ∧
    (schedPass env s).1.leds = (schedPassDispatch env s).1.leds.map
      (fun led => if led.type ≠ LED_UNUSED then
        { led with sleep := led.sleep - (schedPass env s).2 } else led) := by
  obtain ⟨hall, hnet⟩ := hwf
  by_cases hbr : s.nbifs ≠ 0 ∧ s.net_sleep ≤ 0
  · have hcore := dispatch_sleep_core (check_if_status env) SLEEP_500M
      s.fast_mode env s.leds hall (by norm_num [SLEEP_500M])
      (by norm_num [SLEEP_500M, MAXSLEEP]) (Or.inr ⟨rfl, hnet hbr.1⟩)
    simp only [schedPass, schedPassDispatch, if_pos hbr]
    refine ⟨le_of_lt hcore.1, ?_, ?_⟩ <;> first | trivial | exact hcore.2
  · have hcore := dispatch_sleep_core s.statuses MAXSLEEP
      s.fast_mode env s.leds hall (by norm_num [MAXSLEEP]) (le_refl _)
      (Or.inl rfl)
    simp only [schedPass, schedPassDispatch, if_neg hbr]
    exact ⟨le_of_lt hcore.1, trivial, trivial⟩

theorem scheduler_pass_sleep_witness :
    sysWF sysW ∧
    (0 ≤ (schedPass envW sysW).2 ∧
     (schedPass envW sysW).2 =
       computeSleepTime MAXSLEEP (schedPassDispatch envW sysW).1.leds ∧
     (schedPass envW sysW).1.leds = (schedPassDispatch envW sysW).1.leds.map
       (fun led => if led.type ≠ LED_UNUSED then
         { led with sleep := led.sleep - (schedPass envW sysW).2 } else led)) :=
  ⟨by decide, scheduler_pass_sleep envW sysW (by decide)⟩

end AlixLeds
